import Mathlib

/-!
Verification of the message-passing / process-supervision core of the Miro
repository (src/tv/lib/subprocessmanager.py).

The byte pipes are modelled as lists of bytes (Nat values); a blocking
read of k bytes that returns fewer than k models end-of-file, exactly as
the Python file objects behave.  The cPickle library is external to the
repository; it is modelled by an executable injective encoder/decoder pair
over the message types that this module sends (StartupInfo, HandlerInfo,
SubprocessError, application messages, and the None stop sentinel), with
the contract loads (dumps m) = m that the real library provides.
-/

namespace Miro

/-- The messages exchanged by subprocessmanager.py.  Opaque payloads
(config values, handler classes and arguments, report strings, application
message content) are modelled as natural numbers / lists of bytes. -/
inductive Msg where
  | startupInfo (config_dict : List (Nat × Nat))
  | handlerInfo (handler_class : Nat) (handler_args : List Nat)
  | subprocessError (report : List Nat) (soft_fail : Bool)
  | appMsg (payload : Nat)
deriving DecidableEq

/-- struct.pack("L", n): the length field of a frame.  Native byte order
and size; the module's protocol comment fixes it at 4 bytes (little-endian
on the x86 platforms Miro ships on), so values are reduced mod 2^32. -/
def struct_pack_L (n : Nat) : List Nat :=
  [n % 256, n / 256 % 256, n / 256 ^ 2 % 256, n / 256 ^ 3 % 256]

/-- struct.unpack("L", bs)[0] on a 4-byte buffer. -/
def struct_unpack_L (bs : List Nat) : Nat :=
  bs.getD 0 0 + 256 * bs.getD 1 0 + 256 ^ 2 * bs.getD 2 0 + 256 ^ 3 * bs.getD 3 0

/-- Base-256 little-endian digits of a natural number, computed with a
fuel bound (empty for 0); fuel n is always enough for n. -/
def natDigitsF : Nat → Nat → List Nat
  | 0, _ => []
  | fuel + 1, n => if n = 0 then [] else n % 256 :: natDigitsF fuel (n / 256)

/-- Base-256 little-endian digits of a natural number (empty for 0). -/
def natDigits (n : Nat) : List Nat := natDigitsF n n

/-- Value of a base-256 little-endian digit list. -/
def ofDigits : List Nat → Nat
  | [] => 0
  | d :: ds => d + 256 * ofDigits ds

/-- Length-delimited encoding of a natural number inside a pickle body. -/
def encNat (n : Nat) : List Nat :=
  (natDigits n).length :: natDigits n

/-- Decoder matching encNat. -/
def parseNat : List Nat → Option (Nat × List Nat)
  | [] => none
  | len :: rest =>
    if len ≤ rest.length then some (ofDigits (rest.take len), rest.drop len)
    else none

def encBool (b : Bool) : List Nat := [if b then 1 else 0]

def parseBool : List Nat → Option (Bool × List Nat)
  | 0 :: rest => some (false, rest)
  | 1 :: rest => some (true, rest)
  | _ => none

def encPairNat (p : Nat × Nat) : List Nat := encNat p.1 ++ encNat p.2

def parsePairNat (bs : List Nat) : Option ((Nat × Nat) × List Nat) :=
  match parseNat bs with
  | some (a, bs1) =>
    match parseNat bs1 with
    | some (b, bs2) => some ((a, b), bs2)
    | none => none
  | none => none

/-- Concatenated encodings of the elements of a list. -/
def encListWith (enc : α → List Nat) : List α → List Nat
  | [] => []
  | x :: xs => enc x ++ encListWith enc xs

/-- Length-prefixed encoding of a list inside a pickle body. -/
def encList (enc : α → List Nat) (xs : List α) : List Nat :=
  encNat xs.length ++ encListWith enc xs

/-- Run a decoder a fixed number of times. -/
def parseCountWith (p : List Nat → Option (α × List Nat)) :
    Nat → List Nat → Option (List α × List Nat)
  | 0, bs => some ([], bs)
  | k + 1, bs =>
    match p bs with
    | some (a, bs1) =>
      match parseCountWith p k bs1 with
      | some (as, bs2) => some (a :: as, bs2)
      | none => none
    | none => none

/-- Decoder matching encList. -/
def parseList (p : List Nat → Option (α × List Nat)) (bs : List Nat) :
    Option (List α × List Nat) :=
  match parseNat bs with
  | some (len, bs1) => parseCountWith p len bs1
  | none => none

/-- Model of cPickle.dumps on the values this module pickles: an
application message or the None stop sentinel. -/
def pickle_dumps : Option Msg → List Nat
  | none => [0]
  | some (.startupInfo cfg) => 1 :: encList encPairNat cfg
  | some (.handlerInfo cls args) => 2 :: (encNat cls ++ encList encNat args)
  | some (.subprocessError report sf) => 3 :: (encBool sf ++ encList encNat report)
  | some (.appMsg p) => 4 :: encNat p

/-- Decoder for one pickled object, returning the unread remainder. -/
def parseObj : List Nat → Option (Option Msg × List Nat)
  | 0 :: rest => some (none, rest)
  | 1 :: rest =>
    match parseList parsePairNat rest with
    | some (cfg, r) => some (some (.startupInfo cfg), r)
    | none => none
  | 2 :: rest =>
    match parseNat rest with
    | some (cls, r1) =>
      match parseList parseNat r1 with
      | some (args, r2) => some (some (.handlerInfo cls args), r2)
      | none => none
    | none => none
  | 3 :: rest =>
    match parseBool rest with
    | some (sf, r1) =>
      match parseList parseNat r1 with
      | some (report, r2) => some (some (.subprocessError report sf), r2)
      | none => none
    | none => none
  | 4 :: rest =>
    match parseNat rest with
    | some (p, r) => some (some (.appMsg p), r)
    | none => none
  | _ => none

/-- Model of cPickle.loads on a complete pickle body; none models the
exception raised on corrupt data. -/
def pickle_loads (bs : List Nat) : Option (Option Msg) :=
  match parseObj bs with
  | some (m, []) => some m
  | _ => none

/-- How _load_obj can fail: EOFError on a short read, or a pickle
error (a StandardError) on corrupt payload bytes. -/
inductive LoadErr where
  | eof
  | badData
deriving DecidableEq

/-- _load_obj: read 4 length bytes (EOFError if fewer arrive), unpack the
size, read that many payload bytes (EOFError if fewer arrive), unpickle.
Returns the decoded object and the unread remainder of the pipe. -/
def load_obj (pipe : List Nat) : Except LoadErr (Option Msg × List Nat) :=
  if (pipe.take 4).length < 4 then .error .eof
  else if ((pipe.drop 4).take (struct_unpack_L (pipe.take 4))).length
      < struct_unpack_L (pipe.take 4) then .error .eof
  else
    match pickle_loads ((pipe.drop 4).take (struct_unpack_L (pipe.take 4))) with
    | some obj => .ok (obj, (pipe.drop 4).drop (struct_unpack_L (pipe.take 4)))
    | none => .error .badData

/-- _dump_obj: pickle the object and write a 4-byte length field followed
by the pickle bytes (the flush has no effect in the byte-list model, which
has no buffering). -/
def dump_obj (obj : Option Msg) : List Nat :=
  struct_pack_L (pickle_dumps obj).length ++ pickle_dumps obj

/-! Reader thread on the supervisor side (SubprocessResponderThread). -/

/-- The values of SubprocessResponderThread.quit_type, named as in the
source (the design documents call the catch-all case "unexpected"; the
source string for it is "unknown"). -/
inductive QuitType where
  | normal
  | closedPipe
  | readError
  | unknown
deriving DecidableEq

/-- What responder.handle(msg) can do when the reader thread calls it:
return, raise a StandardError, or raise some other exception. -/
inductive PyExc where
  | standardError
  | otherException
deriving DecidableEq

/-- SubprocessResponderThread.run: iterate _read_from_pipe over the
subprocess stdout, dispatching each decoded message to the responder;
classify how the loop ended into quit_type and schedule the quit callback
on the event loop.  Returns the quit_type together with the number of
quit callbacks scheduled. -/
def responder_thread_run (resp : Msg → Except PyExc Unit) (pipe : List Nat) :
    QuitType × Nat :=
  match h : load_obj pipe with
  | .error .eof => (.closedPipe, 1)
  | .error .badData => (.readError, 1)
  | .ok (none, _) => (.normal, 1)
  | .ok (some m, rest) =>
    match resp m with
    | .error .standardError => (.readError, 1)
    | .error .otherException => (.unknown, 1)
    | .ok _ => responder_thread_run resp rest
termination_by pipe.length
decreasing_by
  unfold load_obj at h
  split at h
  · exact absurd h (by simp)
  · split at h
    · exact absurd h (by simp)
    · rename_i h4 _
      split at h
      · cases h
        simp only [List.length_drop]
        simp only [List.length_take, not_lt] at h4
        omega
      · exact absurd h (by simp)

/-! Worker runtime (subprocess side). -/

/-- The application-supplied SubprocessHandler, as the worker main loop
sees it: handling a message either returns, possibly emitting response
messages to the main process, or raises a StandardError carrying a
formatted report. -/
structure HandlerImpl where
  handle : Msg → Except (List Nat) (List Msg)

/-- SubprocessHandler.call_handler: call the method directly; on a raised
StandardError, format it and send a SubprocessError with soft_fail=True
back to the main process.  Returns the frames written to stdout. -/
def call_handler (h : HandlerImpl) (m : Msg) : List (Option Msg) :=
  match h.handle m with
  | .ok outs => outs.map some
  | .error report => [some (.subprocessError report true)]

/-- Lifecycle and dispatch events observable on the worker's handler. -/
inductive WorkerEvent where
  | onStartup
  | handleMsg (m : Msg)
  | onShutdown
deriving DecidableEq

/-- The worker main loop of subprocess_main after setup: pop messages
until the stop marker, dispatch each through call_handler, then call
on_shutdown and write the None sentinel to stdout.  First component:
handler events in order; second: frames written to stdout. -/
def worker_loop (h : HandlerImpl) : List Msg → List WorkerEvent × List (Option Msg)
  | [] => ([.onShutdown], [none])
  | m :: rest =>
    ((.handleMsg m) :: (worker_loop h rest).1,
      call_handler h m ++ (worker_loop h rest).2)

/-- _read_from_pipe as consumed by _subprocess_pipe_thread: the messages
decoded from the pipe before the stop sentinel; decode errors (EOFError
and other StandardErrors) end the iteration. -/
def read_from_pipe (pipe : List Nat) : List Msg :=
  match h : load_obj pipe with
  | .ok (some m, rest) => m :: read_from_pipe rest
  | .ok (none, _) => []
  | .error _ => []
termination_by pipe.length
decreasing_by
  unfold load_obj at h
  split at h
  · exact absurd h (by simp)
  · split at h
    · exact absurd h (by simp)
    · rename_i h4 _
      split at h
      · cases h
        simp only [List.length_drop]
        simp only [List.length_take, not_lt] at h4
        omega
      · exact absurd h (by simp)

/-- How _subprocess_setup can fail: a read/unpickle error on either
bootstrap frame, a first frame that is not a StartupInfo, a second frame
that is not a HandlerInfo, or a handler constructor that raises. -/
inductive SetupFail where
  | loadFail (e : LoadErr)
  | notStartupInfo
  | notHandlerInfo
  | constructFail (report : List Nat)
deriving DecidableEq

/-- The report formatted by _send_subprocess_error_for_exception for a
setup failure (the stack text is abstracted to a tag per exception). -/
def setup_report : SetupFail → List Nat
  | .loadFail .eof => [0]
  | .loadFail .badData => [1]
  | .notStartupInfo => [2]
  | .notHandlerInfo => [3]
  | .constructFail report => 4 :: report

/-- _subprocess_setup: install the stdout message proxy, read the first
frame (it must be a StartupInfo, else TypeError), apply the config, read
the second frame (it must be a HandlerInfo, else TypeError), and construct
the handler, whose constructor may itself raise.  Returns the handler and
the unread remainder of stdin. -/
def subprocess_setup (construct : Nat → List Nat → Except (List Nat) HandlerImpl)
    (stdin : List Nat) : Except SetupFail (HandlerImpl × List Nat) :=
  match load_obj stdin with
  | .error e => .error (.loadFail e)
  | .ok (some (.startupInfo _), rest) =>
    match load_obj rest with
    | .error e => .error (.loadFail e)
    | .ok (some (.handlerInfo cls args), rest2) =>
      match construct cls args with
      | .ok h => .ok (h, rest2)
      | .error report => .error (.constructFail report)
    | .ok (_, _) => .error .notHandlerInfo
  | .ok (_, _) => .error .notStartupInfo

/-- subprocess_main: run _subprocess_setup; on any exception write a
SubprocessError (soft_fail=True) and the None sentinel to stdout and
return without entering the main loop; otherwise feed the queue filled by
the stdin pipe thread through the main loop after calling on_startup.
First component: handler events; second: frames written to stdout. -/
def subprocess_main (construct : Nat → List Nat → Except (List Nat) HandlerImpl)
    (stdin : List Nat) : List WorkerEvent × List (Option Msg) :=
  match subprocess_setup construct stdin with
  | .error e => ([], [some (.subprocessError (setup_report e) true), none])
  | .ok (h, rest) =>
    (WorkerEvent.onStartup :: (worker_loop h (read_from_pipe rest)).1,
      (worker_loop h (read_from_pipe rest)).2)

/-! Supervisor (SubprocessManager) and responder (SubprocessResponder). -/

/-- Externally visible actions of the SubprocessManager, in program
order: spawning a process, writing a frame to its stdin, logging a broken
pipe in send_message, the responder lifecycle callbacks, the restart
warning log, closing the old stdin before a restart, and terminating the
process during shutdown. -/
inductive MgrEvent where
  | spawn
  | sendMsg (m : Option Msg)
  | logBrokenPipe
  | onStartupCB
  | onShutdownCB
  | onRestartCB
  | logRestartWarn
  | closeStdin
  | terminateProc
deriving DecidableEq

/-- The SubprocessManager state: is_running plus whether the process and
thread handles are held (True models a handle, False models None), and
the constructor data used to build the bootstrap messages. -/
structure MgrState where
  is_running : Bool
  process : Bool
  thread : Bool
  config_dict : List (Nat × Nat)
  handler_class : Nat
  handler_args : List Nat
deriving DecidableEq

/-- SubprocessManager.send_message: raise ValueError unless running;
otherwise pickle and write the frame to the process stdin, and on an
IOError (broken pipe) log and return normally.  pipeBroken models whether
the write raises IOError. -/
def send_message (s : MgrState) (pipeBroken : Bool) (m : Option Msg) :
    Except Unit (MgrState × List MgrEvent) :=
  if s.is_running = false then .error ()
  else if pipeBroken then .ok (s, [.logBrokenPipe])
  else .ok (s, [.sendMsg m])

/-- SubprocessManager._start: spawn the process, start the responder
thread, set is_running, send StartupInfo then HandlerInfo via
send_message, and call the responder's on_startup. -/
def mgr_start (s : MgrState) (pipeBroken : Bool) : MgrState × List MgrEvent :=
  let s2 : MgrState := { s with is_running := true, process := true, thread := true }
  let evs1 :=
    match send_message s2 pipeBroken (some (.startupInfo s.config_dict)) with
    | .ok r => r.2
    | .error _ => []
  let evs2 :=
    match send_message s2 pipeBroken
        (some (.handlerInfo s.handler_class s.handler_args)) with
    | .ok r => r.2
    | .error _ => []
  (s2, [.spawn] ++ evs1 ++ evs2 ++ [.onStartupCB])

/-- SubprocessManager._cleanup_process: release the thread and process
handles and clear is_running. -/
def cleanup_process (s : MgrState) : MgrState :=
  { s with thread := false, process := false, is_running := false }

/-- SubprocessManager._on_thread_quit: ignore the callback when not
running (it was queued during shutdown); on a normal quit clean up; on
any other quit_type log a warning and restart (_restart closes the old
stdin, runs _start, and fires the responder's on_restart). -/
def on_thread_quit (s : MgrState) (quit_type : QuitType) (pipeBroken : Bool) :
    MgrState × List MgrEvent :=
  if s.is_running = false then (s, [])
  else if quit_type = QuitType.normal then (cleanup_process s, [])
  else
    ((mgr_start s pipeBroken).1,
      [.logRestartWarn, .closeStdin] ++ (mgr_start s pipeBroken).2 ++ [.onRestartCB])

/-- SubprocessManager.shutdown: return if not running; otherwise call the
responder's on_shutdown, politely send the None quit sentinel, join the
thread with the timeout, terminate the process if it has not exited, and
clean up.  processExited models whether returncode was set in time. -/
def shutdown (s : MgrState) (pipeBroken : Bool) (processExited : Bool) :
    MgrState × List MgrEvent :=
  if s.is_running = false then (s, [])
  else
    (cleanup_process s,
      [.onShutdownCB]
        ++ (match send_message s pipeBroken none with
            | .ok r => r.2
            | .error _ => [])
        ++ (if processExited then [] else [.terminateProc]))

/-- What SubprocessResponder.handle_subprocess_error does with the
message: call app.controller.failed_soft (the application's failure
reporting path) or logging.warn. -/
inductive ResponderAction where
  | failedSoft (report : List Nat)
  | logWarn (report : List Nat)
deriving DecidableEq

/-- SubprocessResponder.handle_subprocess_error: failed_soft when the
message has soft_fail set, logging.warn otherwise.  The manager state is
passed through untouched: the method performs no lifecycle action. -/
def handle_subprocess_error (s : MgrState) (report : List Nat) (soft_fail : Bool) :
    MgrState × ResponderAction :=
  if soft_fail then (s, .failedSoft report) else (s, .logWarn report)

/-! Concrete fixtures used by the witness theorems. -/

/-- A running manager state. -/
def mgr0 : MgrState := ⟨true, true, true, [(1, 2)], 3, [4]⟩

/-- A stopped manager state with released handles. -/
def mgrStopped : MgrState := ⟨false, false, false, [], 0, []⟩

/-- A handler that raises on appMsg 0 and succeeds on anything else. -/
def handler0 : HandlerImpl :=
  ⟨fun m => match m with | .appMsg 0 => .error [9] | _ => .ok []⟩

/-- A handler constructor that always succeeds. -/
def construct0 : Nat → List Nat → Except (List Nat) HandlerImpl :=
  fun _ _ => .ok handler0

/-- A responder whose handle method never raises. -/
def resp0 : Msg → Except PyExc Unit := fun _ => .ok ()

/-! Supporting lemmas. -/

theorem ofDigits_natDigitsF (fuel : Nat) :
    ∀ n, n ≤ fuel → ofDigits (natDigitsF fuel n) = n := by
  induction fuel with
  | zero =>
    intro n hn
    interval_cases n
    simp [natDigitsF, ofDigits]
  | succ fuel ih =>
    intro n hn
    by_cases h : n = 0
    · simp [natDigitsF, h, ofDigits]
    · rw [natDigitsF]
      simp only [h, ite_false, ofDigits]
      rw [ih (n / 256) (by omega)]
      omega

theorem ofDigits_natDigits (n : Nat) : ofDigits (natDigits n) = n :=
  ofDigits_natDigitsF n n le_rfl

theorem parseNat_encNat (n : Nat) (rest : List Nat) :
    parseNat (encNat n ++ rest) = some (n, rest) := by
  simp only [encNat, List.cons_append, parseNat]
  rw [if_pos (by simp), List.take_left, List.drop_left, ofDigits_natDigits]

theorem parseBool_encBool (b : Bool) (rest : List Nat) :
    parseBool (encBool b ++ rest) = some (b, rest) := by
  cases b <;> simp [encBool, parseBool]

theorem parsePairNat_encPairNat (p : Nat × Nat) (rest : List Nat) :
    parsePairNat (encPairNat p ++ rest) = some (p, rest) := by
  simp [encPairNat, parsePairNat, List.append_assoc, parseNat_encNat]

theorem parseCountWith_encListWith (p : List Nat → Option (α × List Nat))
    (enc : α → List Nat)
    (h : ∀ x rest, p (enc x ++ rest) = some (x, rest))
    (xs : List α) (rest : List Nat) :
    parseCountWith p xs.length (encListWith enc xs ++ rest) = some (xs, rest) := by
  induction xs with
  | nil => simp [encListWith, parseCountWith]
  | cons x xs ih =>
    simp only [List.length_cons, encListWith, List.append_assoc, parseCountWith, h, ih]

theorem parseList_encList (p : List Nat → Option (α × List Nat))
    (enc : α → List Nat)
    (h : ∀ x rest, p (enc x ++ rest) = some (x, rest))
    (xs : List α) (rest : List Nat) :
    parseList p (encList enc xs ++ rest) = some (xs, rest) := by
  simp only [encList, parseList, List.append_assoc, parseNat_encNat]
  exact parseCountWith_encListWith p enc h xs rest

theorem parseObj_pickle_dumps (m : Option Msg) (rest : List Nat) :
    parseObj (pickle_dumps m ++ rest) = some (m, rest) := by
  match m with
  | none => simp [pickle_dumps, parseObj]
  | some (.startupInfo cfg) =>
    simp [pickle_dumps, parseObj,
      parseList_encList parsePairNat encPairNat parsePairNat_encPairNat]
  | some (.handlerInfo cls args) =>
    simp [pickle_dumps, parseObj, List.append_assoc, parseNat_encNat,
      parseList_encList parseNat encNat parseNat_encNat]
  | some (.subprocessError report sf) =>
    simp [pickle_dumps, parseObj, List.append_assoc, parseBool_encBool,
      parseList_encList parseNat encNat parseNat_encNat]
  | some (.appMsg p) => simp [pickle_dumps, parseObj, parseNat_encNat]

theorem pickle_loads_pickle_dumps (m : Option Msg) :
    pickle_loads (pickle_dumps m) = some m := by
  have h := parseObj_pickle_dumps m []
  rw [List.append_nil] at h
  unfold pickle_loads
  rw [h]

theorem struct_unpack_pack (n : Nat) (h : n < 2 ^ 32) :
    struct_unpack_L (struct_pack_L n) = n := by
  show n % 256 + 256 * (n / 256 % 256) + 256 ^ 2 * (n / 256 ^ 2 % 256)
      + 256 ^ 3 * (n / 256 ^ 3 % 256) = n
  omega

theorem struct_pack_length (n : Nat) : (struct_pack_L n).length = 4 := rfl

theorem take_dump (m : Option Msg) (extra : List Nat) :
    (dump_obj m ++ extra).take 4 = struct_pack_L (pickle_dumps m).length := by
  rw [dump_obj, List.append_assoc,
    show (4 : Nat) = (struct_pack_L (pickle_dumps m).length).length from rfl]
  exact List.take_left _ _

theorem drop_dump (m : Option Msg) (extra : List Nat) :
    (dump_obj m ++ extra).drop 4 = pickle_dumps m ++ extra := by
  rw [dump_obj, List.append_assoc,
    show (4 : Nat) = (struct_pack_L (pickle_dumps m).length).length from rfl]
  exact List.drop_left _ _

theorem load_obj_dump_obj (m : Option Msg) (extra : List Nat)
    (h : (pickle_dumps m).length < 2 ^ 32) :
    load_obj (dump_obj m ++ extra) = .ok (m, extra) := by
  unfold load_obj
  rw [take_dump, drop_dump, struct_pack_length, struct_unpack_pack _ h,
    List.take_left, List.drop_left]
  simp [pickle_loads_pickle_dumps]

/-- On any successful _load_obj the unread remainder is strictly shorter
than the pipe contents (a frame occupies at least its 4 length bytes). -/
theorem load_obj_ok_length {pipe : List Nat} {r : Option Msg} {rest : List Nat}
    (h : load_obj pipe = .ok (r, rest)) : rest.length < pipe.length := by
  unfold load_obj at h
  split at h
  · exact absurd h (by simp)
  · split at h
    · exact absurd h (by simp)
    · rename_i h4 _
      split at h
      · cases h
        simp only [List.length_drop]
        simp only [List.length_take, not_lt] at h4
        omega
      · exact absurd h (by simp)

theorem worker_loop_events_shape (h : HandlerImpl) (msgs : List Msg) :
    ∃ evs, (worker_loop h msgs).1 = evs ++ [WorkerEvent.onShutdown] := by
  induction msgs with
  | nil => exact ⟨[], rfl⟩
  | cons m rest ih =>
    obtain ⟨evs, hevs⟩ := ih
    exact ⟨.handleMsg m :: evs, by simp [worker_loop, hevs]⟩

theorem worker_loop_output_shape (h : HandlerImpl) (msgs : List Msg) :
    ∃ outs, (worker_loop h msgs).2 = outs ++ [none] := by
  induction msgs with
  | nil => exact ⟨[], rfl⟩
  | cons m rest ih =>
    obtain ⟨outs, houts⟩ := ih
    exact ⟨call_handler h m ++ outs, by simp [worker_loop, houts]⟩

theorem worker_loop_dispatches (h : HandlerImpl) (msgs : List Msg) :
    ∀ m ∈ msgs, WorkerEvent.handleMsg m ∈ (worker_loop h msgs).1 := by
  induction msgs with
  | nil => intro m hm; cases hm
  | cons m0 rest ih =>
    intro m hm
    rcases List.mem_cons.mp hm with h0 | h0
    · subst h0; simp [worker_loop]
    · simp [worker_loop]
      exact Or.inr (ih m h0)

theorem worker_loop_reports (h : HandlerImpl) (msgs : List Msg)
    (m : Msg) (report : List Nat) (hm : m ∈ msgs)
    (hr : h.handle m = .error report) :
    some (Msg.subprocessError report true) ∈ (worker_loop h msgs).2 := by
  induction msgs with
  | nil => cases hm
  | cons m0 rest ih =>
    rcases List.mem_cons.mp hm with h0 | h0
    · subst h0
      simp only [worker_loop, List.mem_append]
      exact Or.inl (by simp [call_handler, hr])
    · simp only [worker_loop, List.mem_append]
      exact Or.inr (ih h0)

/-! Claim theorems. -/

/-- Claim C1: for every message in the supported set (application
messages and the None stop sentinel) whose pickled payload fits the
4-byte length field, writing it as a frame with _dump_obj and reading one
frame back with _load_obj yields the original message (and consumes the
whole frame). -/
theorem framing_round_trip (m : Option Msg)
    (h : (pickle_dumps m).length < 2 ^ 32) :
    load_obj (dump_obj m) = .ok (m, []) := by
  have hx := load_obj_dump_obj m [] h
  rwa [List.append_nil] at hx

theorem framing_round_trip_witness :
    ((pickle_dumps (some (Msg.appMsg 5))).length < 2 ^ 32
      ∧ load_obj (dump_obj (some (Msg.appMsg 5))) = .ok (some (Msg.appMsg 5), []))
    ∧ ((pickle_dumps none).length < 2 ^ 32
      ∧ load_obj (dump_obj none) = .ok (none, [])) :=
  ⟨⟨by decide, framing_round_trip (some (Msg.appMsg 5)) (by decide)⟩,
    ⟨by decide, framing_round_trip none (by decide)⟩⟩

/-- Claim C2: _dump_obj writes exactly a 4-byte length field that decodes
to the byte length of the pickled payload, followed by the payload bytes
(the flush is implicit in the unbuffered byte-list model); _load_obj
reads 4 length bytes and then exactly that many payload bytes, failing
with EOFError exactly when either read returns fewer bytes than
requested. -/
theorem wire_frame_contract (m : Option Msg) (pipe : List Nat) :
    dump_obj m = struct_pack_L (pickle_dumps m).length ++ pickle_dumps m
    ∧ (struct_pack_L (pickle_dumps m).length).length = 4
    ∧ ((pickle_dumps m).length < 2 ^ 32 →
        struct_unpack_L (struct_pack_L (pickle_dumps m).length)
          = (pickle_dumps m).length)
    ∧ (pipe.length < 4 → load_obj pipe = .error .eof)
    ∧ (4 ≤ pipe.length →
        (load_obj pipe = .error .eof
          ↔ pipe.length < 4 + struct_unpack_L (pipe.take 4)))
    ∧ (∀ r rest, load_obj pipe = .ok (r, rest) →
        rest = pipe.drop (4 + struct_unpack_L (pipe.take 4))) := by
  refine ⟨rfl, struct_pack_length _, fun h => struct_unpack_pack _ h, ?_, ?_, ?_⟩
  · intro h
    unfold load_obj
    rw [if_pos]
    simp only [List.length_take]
    omega
  · intro h4
    constructor
    · intro he
      unfold load_obj at he
      split at he
      · rename_i hc
        simp only [List.length_take] at hc
        omega
      · split at he
        · rename_i hc2
          simp only [List.length_take, List.length_drop] at hc2
          omega
        · split at he <;> simp at he
    · intro hlt
      have hc1 : ¬ ((pipe.take 4).length < 4) := by
        simp only [List.length_take]
        omega
      have hc2 : ((pipe.drop 4).take (struct_unpack_L (pipe.take 4))).length
          < struct_unpack_L (pipe.take 4) := by
        simp only [List.length_take, List.length_drop]
        omega
      unfold load_obj
      rw [if_neg hc1, if_pos hc2]
  · intro r rest hok
    unfold load_obj at hok
    split at hok
    · exact absurd hok (by simp)
    · split at hok
      · exact absurd hok (by simp)
      · split at hok
        · cases hok
          rw [List.drop_drop, Nat.add_comm]
        · exact absurd hok (by simp)

theorem wire_frame_contract_witness :
    dump_obj none = struct_pack_L (pickle_dumps none).length ++ pickle_dumps none
    ∧ load_obj [] = .error .eof :=
  ⟨(wire_frame_contract none []).1,
    (wire_frame_contract none []).2.2.2.1 (by decide)⟩

/-- Claim C3 (counterexample): at a concrete WorkerError message, the
responder's default handler reacts to soft_fail=False with the plain
logging.warn action, not the failed_soft escalation path the claim
predicts, and reacts to soft_fail=True with failed_soft, not a mere
log. -/
theorem worker_error_dispatch_cex :
    (handle_subprocess_error mgr0 [7] false).2 = ResponderAction.logWarn [7]
    ∧ (handle_subprocess_error mgr0 [7] true).2 = ResponderAction.failedSoft [7] := by
  exact ⟨rfl, rfl⟩

/-- Claim C3 (amended): the responder's default handler for a
SubprocessError escalates through app.controller.failed_soft exactly the
messages whose soft_fail flag is true, and merely logs those whose
soft_fail flag is false; in neither case does it change the supervisor
state, so handling the error never stops the supervisor. -/
theorem worker_error_dispatch (s : MgrState) (report : List Nat) (sf : Bool) :
    (handle_subprocess_error s report sf).1 = s
    ∧ (sf = true →
        (handle_subprocess_error s report sf).2 = ResponderAction.failedSoft report)
    ∧ (sf = false →
        (handle_subprocess_error s report sf).2 = ResponderAction.logWarn report) := by
  cases sf <;> simp [handle_subprocess_error]

theorem worker_error_dispatch_witness :
    (handle_subprocess_error mgr0 [7] true).1 = mgr0
    ∧ (handle_subprocess_error mgr0 [7] true).2 = ResponderAction.failedSoft [7] :=
  ⟨(worker_error_dispatch mgr0 [7] true).1,
    (worker_error_dispatch mgr0 [7] true).2.1 rfl⟩

/-- Claim C4: if the worker-side handler raises a StandardError while
dispatching some message of the queue, the error is caught and reported
as a SubprocessError with soft_fail=True on stdout, every queued message
is still dispatched, the loop still reaches on_shutdown, and the final
None sentinel is still written: the raised error does not terminate the
worker loop. -/
theorem handler_error_isolation (h : HandlerImpl) (msgs : List Msg)
    (m : Msg) (report : List Nat) (hm : m ∈ msgs)
    (hr : h.handle m = .error report) :
    some (Msg.subprocessError report true) ∈ (worker_loop h msgs).2
    ∧ (∀ m2 ∈ msgs, WorkerEvent.handleMsg m2 ∈ (worker_loop h msgs).1)
    ∧ (∃ evs, (worker_loop h msgs).1 = evs ++ [WorkerEvent.onShutdown])
    ∧ (∃ outs, (worker_loop h msgs).2 = outs ++ [none]) :=
  ⟨worker_loop_reports h msgs m report hm hr,
    worker_loop_dispatches h msgs,
    worker_loop_events_shape h msgs,
    worker_loop_output_shape h msgs⟩

theorem handler_error_isolation_witness :
    some (Msg.subprocessError [9] true)
      ∈ (worker_loop handler0 [Msg.appMsg 0, Msg.appMsg 1]).2
    ∧ WorkerEvent.handleMsg (Msg.appMsg 1)
      ∈ (worker_loop handler0 [Msg.appMsg 0, Msg.appMsg 1]).1 := by
  have hx := handler_error_isolation handler0 [Msg.appMsg 0, Msg.appMsg 1]
    (Msg.appMsg 0) [9] (by decide) rfl
  exact ⟨hx.1, hx.2.1 (Msg.appMsg 1) (by decide)⟩

/-- Claim C5: whenever _subprocess_setup fails (short or corrupt
bootstrap frame, first frame not a StartupInfo, second frame not a
HandlerInfo, or a raising handler constructor), subprocess_main writes a
SubprocessError describing the failure followed by the None stop sentinel
and returns with no handler events at all: on_startup is never called and
the main loop is never entered. -/
theorem startup_handshake_rejection
    (construct : Nat → List Nat → Except (List Nat) HandlerImpl)
    (stdin : List Nat) (e : SetupFail)
    (h : subprocess_setup construct stdin = .error e) :
    subprocess_main construct stdin
      = ([], [some (.subprocessError (setup_report e) true), none]) := by
  unfold subprocess_main
  rw [h]

theorem startup_handshake_rejection_witness :
    subprocess_main construct0 []
      = ([], [some (.subprocessError (setup_report (.loadFail .eof)) true), none]) :=
  startup_handshake_rejection construct0 [] (.loadFail .eof) rfl

/-- Claim C6: for a quit notification delivered while the supervisor is
running and with a working pipe to the fresh process, a restart (a spawn
of a new process) happens exactly when the recorded quit_type is not
normal; the restart trace closes the old stdin before spawning, then
sends the StartupInfo/HandlerInfo handshake, and fires the responder's
on_restart only after the handshake frames are written. -/
theorem restart_policy (s : MgrState) (qt : QuitType)
    (hrun : s.is_running = true) :
    (MgrEvent.spawn ∈ (on_thread_quit s qt false).2 ↔ qt ≠ QuitType.normal)
    ∧ (qt = QuitType.normal →
        on_thread_quit s qt false = (cleanup_process s, []))
    ∧ (qt ≠ QuitType.normal →
        on_thread_quit s qt false =
          ({ s with is_running := true, process := true, thread := true },
            [.logRestartWarn, .closeStdin, .spawn,
              .sendMsg (some (.startupInfo s.config_dict)),
              .sendMsg (some (.handlerInfo s.handler_class s.handler_args)),
              .onStartupCB, .onRestartCB])) := by
  cases qt <;>
    simp [on_thread_quit, mgr_start, send_message, cleanup_process, hrun]

theorem restart_policy_witness :
    MgrEvent.spawn ∈ (on_thread_quit mgr0 QuitType.closedPipe false).2 :=
  (restart_policy mgr0 QuitType.closedPipe rfl).1.mpr (by decide)

/-- Claim C7: the reader thread classifies how its read loop ended:
normal on decoding the stop sentinel, closed-pipe on EOFError,
read-error on any other StandardError (corrupt frame data or a
StandardError from the responder dispatch), and the catch-all quit_type
(spelled "unknown" in the source, "unexpected" in the design documents)
on any other exception; and on every input it schedules exactly one quit
notification onto the event loop. -/
theorem reader_quit_classification (resp : Msg → Except PyExc Unit)
    (pipe : List Nat) :
    (∀ rest, load_obj pipe = .ok (none, rest) →
        responder_thread_run resp pipe = (QuitType.normal, 1))
    ∧ (load_obj pipe = .error .eof →
        responder_thread_run resp pipe = (QuitType.closedPipe, 1))
    ∧ (load_obj pipe = .error .badData →
        responder_thread_run resp pipe = (QuitType.readError, 1))
    ∧ (∀ m rest, load_obj pipe = .ok (some m, rest) →
        resp m = .error .standardError →
        responder_thread_run resp pipe = (QuitType.readError, 1))
    ∧ (∀ m rest, load_obj pipe = .ok (some m, rest) →
        resp m = .error .otherException →
        responder_thread_run resp pipe = (QuitType.unknown, 1))
    ∧ (responder_thread_run resp pipe).2 = 1 := by
  refine ⟨?_, ?_, ?_, ?_, ?_, ?_⟩
  · intro rest hload
    rw [responder_thread_run]
    split <;> simp_all
  · intro hload
    rw [responder_thread_run]
    split <;> simp_all
  · intro hload
    rw [responder_thread_run]
    split <;> simp_all
  · intro m rest hload hresp
    rw [responder_thread_run]
    split <;> simp_all
  · intro m rest hload hresp
    rw [responder_thread_run]
    split <;> simp_all
  · have key : ∀ n pipe2, pipe2.length ≤ n →
        (responder_thread_run resp pipe2).2 = 1 := by
      intro n
      induction n with
      | zero =>
        intro pipe2 hp
        have : pipe2 = [] := List.length_eq_zero.mp (Nat.le_zero.mp hp)
        subst this
        rw [responder_thread_run]
        rfl
      | succ n ih =>
        intro pipe2 hp
        rw [responder_thread_run]
        split
        · rfl
        · rfl
        · rfl
        · split
          · rfl
          · rfl
          · rename_i hm hrest hload ha hresp
            exact ih _ (by
              have := load_obj_ok_length hrest
              omega)
    exact key pipe.length pipe le_rfl

theorem reader_quit_classification_witness :
    responder_thread_run resp0 [] = (QuitType.closedPipe, 1) :=
  (reader_quit_classification resp0 []).2.1 rfl

/-- Claim C8: send_message raises ValueError exactly when the supervisor
is not running; when running it writes the pickled frame to the process
stdin, and on a broken-pipe IOError it logs and returns normally with the
state unchanged and no restart attempted (no spawn happens). -/
theorem send_message_contract (s : MgrState) (broken : Bool) (m : Option Msg) :
    (send_message s broken m = .error () ↔ s.is_running = false)
    ∧ (s.is_running = true → broken = false →
        send_message s broken m = .ok (s, [.sendMsg m]))
    ∧ (s.is_running = true → broken = true →
        send_message s broken m = .ok (s, [.logBrokenPipe])) := by
  cases hr : s.is_running <;> cases broken <;> simp [send_message, hr]

theorem send_message_contract_witness :
    send_message mgrStopped false none = .error ()
    ∧ send_message mgr0 true (some (Msg.appMsg 1)) = .ok (mgr0, [.logBrokenPipe])
    ∧ send_message mgr0 false (some (Msg.appMsg 1))
      = .ok (mgr0, [.sendMsg (some (Msg.appMsg 1))]) :=
  ⟨(send_message_contract mgrStopped false none).1.mpr rfl,
    (send_message_contract mgr0 true (some (Msg.appMsg 1))).2.2 rfl rfl,
    (send_message_contract mgr0 false (some (Msg.appMsg 1))).2.1 rfl rfl⟩

/-- Claim C9: shutdown always leaves the supervisor stopped with the
process and thread handles released (given the invariant that a
non-running supervisor holds no handles), and a second shutdown
immediately after is a no-op returning the same state with no events. -/
theorem shutdown_idempotent (s : MgrState) (broken exited : Bool)
    (hinv : s.is_running = false → s.process = false ∧ s.thread = false) :
    ((shutdown s broken exited).1.is_running = false
      ∧ (shutdown s broken exited).1.process = false
      ∧ (shutdown s broken exited).1.thread = false)
    ∧ (∀ b2 e2, shutdown (shutdown s broken exited).1 b2 e2
        = ((shutdown s broken exited).1, [])) := by
  by_cases h : s.is_running = false
  · obtain ⟨hp, ht⟩ := hinv h
    simp [shutdown, h, hp, ht]
  · simp only [shutdown, h, if_false]
    refine ⟨⟨rfl, rfl, rfl⟩, ?_⟩
    intro b2 e2
    simp [shutdown, cleanup_process]

theorem shutdown_idempotent_witness :
    (shutdown mgr0 false true).1.is_running = false
    ∧ shutdown (shutdown mgr0 false true).1 false true
      = ((shutdown mgr0 false true).1, []) := by
  have hx := shutdown_idempotent mgr0 false true (by intro hc; exact absurd hc (by decide))
  exact ⟨hx.1.1, hx.2 false true⟩

/-- Claim C10: a reader-thread quit notification delivered while the
supervisor is not running is ignored: _on_thread_quit returns with the
state unchanged and performs no action, whatever the quit_type. -/
theorem stale_quit_ignored (s : MgrState) (qt : QuitType) (broken : Bool)
    (h : s.is_running = false) :
    on_thread_quit s qt broken = (s, []) := by
  simp [on_thread_quit, h]

theorem stale_quit_ignored_witness :
    on_thread_quit mgrStopped QuitType.readError false = (mgrStopped, []) :=
  stale_quit_ignored mgrStopped QuitType.readError false rfl

end Miro
